import Mathlib

/-!
Shallow embedding of the format-discovery and download-orchestration core of
`youtube_downloader_gui.py` (class `YouTubeDownloader`), together with proofs
about the catalog builder, the fetch/download state transitions, the error
dispatch and the subprocess command construction.

Python dictionary fields read with `dict.get` are modelled as `Option`
fields (`none` = key absent); `dict.get(k, d)` becomes `Option.getD d`.
The subprocess itself is external: its outcome (parsed JSON, exception,
emitted lines, exit code) is a parameter of the embedded functions.
-/

/-- Raw format dictionary as found in the `formats` array of the tool's JSON
output (`_fetch_formats_thread`, the fields read at lines 292-298). -/
structure RawFormat where
  vcodec : Option String
  format_id : Option String
  ext : Option String
  resolution : Option String
  fps : Option Nat
  acodec : Option String
  filesize : Option Nat
  filesize_approx : Option Nat
deriving Repr, DecidableEq

/-- Catalog entry appended to `video_formats` (lines 309-314 of the source). -/
structure CatalogEntry where
  id : Option String
  description : String
  resolution : String
  has_audio : Bool
deriving Repr, DecidableEq

/-- Python renders `None` in an f-string as the text "None". -/
def pyStr : Option String → String
  | some s => s
  | none => "None"

/-- Python `str.strip()`: drop leading and trailing whitespace. Defined over
the character list so that it evaluates by kernel reduction. -/
def pyStrip (s : String) : String :=
  String.mk (((s.data.dropWhile Char.isWhitespace).reverse.dropWhile
    Char.isWhitespace).reverse)

/-- Size in bytes actually used: `f.get('filesize') or f.get('filesize_approx', 0)`
(line 298). Python `or` falls through on `None` and on `0`. -/
def sizeBytes (f : RawFormat) : Nat :=
  match f.filesize with
  | some n => if n = 0 then f.filesize_approx.getD 0 else n
  | none => f.filesize_approx.getD 0

/-- Tenths of a megabyte, rounding half to even: models the value printed by
`f"{filesize / (1024 * 1024):.1f}"` (lines 301-302). The Python code divides
in binary floating point; this rational rounding agrees with it whenever the
quotient is exactly representable (in particular on every concrete value used
in the spec's examples). -/
def mbTenths (bytes : Nat) : Nat :=
  let n := bytes * 10
  let q := n / 1048576
  let r := n % 1048576
  if 1048576 < 2 * r then q + 1
  else if 2 * r < 1048576 then q
  else if q % 2 = 0 then q else q + 1

/-- The rendered size text `f"{size_mb:.1f}MB"` (line 302). -/
def fmtMB (bytes : Nat) : String :=
  toString (mbTenths bytes / 10) ++ "." ++ toString (mbTenths bytes % 10) ++ "MB"

/-- `size_str` of lines 300-304: formatted megabytes when the chosen size is
non-zero, otherwise "Unknown". -/
def sizeStr (f : RawFormat) : String :=
  if sizeBytes f = 0 then "Unknown" else fmtMB (sizeBytes f)

/-- The filter of line 292: `if f.get('vcodec') != 'none'`. An absent key
yields Python `None`, which is different from the string `'none'`. -/
def includeFormat (f : RawFormat) : Bool :=
  decide (f.vcodec ≠ some "none")

/-- Construction of one `video_formats` element (lines 293-314). -/
def mkEntry (f : RawFormat) : CatalogEntry :=
  let resolution := f.resolution.getD "audio only"
  let fps := f.fps.getD 0
  let acodec := f.acodec.getD "none"
  let audio_info := if acodec ≠ "none" then "🔊 Audio" else "🔇 No Audio"
  let fps_info := if fps ≠ 0 then " • " ++ toString fps ++ "fps" else ""
  { id := f.format_id
    description := "📹 " ++ resolution ++ fps_info ++ " • " ++ pyStr f.ext ++ " • "
      ++ audio_info ++ " • " ++ sizeStr f
    resolution := resolution
    has_audio := decide (acodec ≠ "none") }

/-- The deduplication key `(f['resolution'], f['has_audio'])` (line 320). -/
def keyOf (e : CatalogEntry) : String × Bool :=
  (e.resolution, e.has_audio)

/-- The `video_formats` list built by the loop of lines 291-314: filter on
`vcodec`, then build an entry per surviving raw format, in input order. -/
def videoFormats (raws : List RawFormat) : List CatalogEntry :=
  (raws.filter includeFormat).map mkEntry

/-- The dedup loop of lines 316-323: walk the list front to back, keep an
entry only when its key has not been seen yet. -/
def dedupFormats (seen : List (String × Bool)) : List CatalogEntry → List CatalogEntry
  | [] => []
  | e :: rest =>
    if keyOf e ∈ seen then dedupFormats seen rest
    else e :: dedupFormats (keyOf e :: seen) rest

/-- `unique_formats` as computed by `_fetch_formats_thread` (lines 289-323):
the whole raw-format processing step. -/
def buildCatalog (raws : List RawFormat) : List CatalogEntry :=
  dedupFormats [] (videoFormats raws)

/-- First element of the list with the given dedup key, if any. -/
def firstWithKey (k : String × Bool) : List CatalogEntry → Option CatalogEntry
  | [] => none
  | e :: rest => if keyOf e = k then some e else firstWithKey k rest

/-- A message box shown via `tkinter.messagebox` (title, message). -/
structure Note where
  title : String
  message : String
deriving Repr, DecidableEq

/-- Python `repr` of a quote-free printable string: wrapped in single
quotes. The URLs and flags interpolated here contain no quote, backslash or
unprintable character, the cases in which Python would pick another
rendering. -/
def pyReprStr (s : String) : String :=
  "\x27" ++ s ++ "\x27"

/-- Python `repr` of the three-element command list `['yt-dlp', '-J', url]`
built at line 282. -/
def pyListRepr3 (a b c : String) : String :=
  "[" ++ pyReprStr a ++ ", " ++ pyReprStr b ++ ", " ++ pyReprStr c ++ "]"

/-- `str()` of the `subprocess.CalledProcessError` raised by the
`subprocess.run(..., check=True)` call at line 283: CPython formats
`"Command '%s' returned non-zero exit status %d." % (self.cmd, self.returncode)`
for a positive exit status (a negative code, death by signal, has a
different rendering not needed here). The stderr captured by
`capture_output=True` is stored on the exception object but is NOT part of
this text. -/
def cpeStr (url : String) (returncode : Nat) : String :=
  "Command \x27" ++ pyListRepr3 "yt-dlp" "-J" url
    ++ "\x27 returned non-zero exit status " ++ toString returncode ++ "."

/-- Exceptions that can escape the body of `_fetch_formats_thread`:
`subprocess.CalledProcessError` (tool exited with the given positive status
for the given URL; the captured stderr sits on the exception object),
`FileNotFoundError` (executable missing), `json.JSONDecodeError` (stdout
not valid JSON; a subclass of plain `Exception`, NOT of the first two), and
any other exception. -/
inductive FetchExc where
  | calledProcessError (url : String) (returncode : Nat) (capturedStderr : String)
  | fileNotFoundError
  | jsonDecodeError (msg : String)
  | otherError (msg : String)
deriving Repr, DecidableEq

/-- The error dispatch of lines 328-336: three handlers. The
`CalledProcessError` message interpolates `str(e)` - the command and exit
status - so the captured stderr never reaches the notification. A
`json.JSONDecodeError` matches neither `subprocess.CalledProcessError` nor
`FileNotFoundError`, so it falls into the final `except Exception` arm. -/
def fetchErrorNote : FetchExc → Note
  | .calledProcessError url returncode _ =>
      { title := "Error", message := "Failed to fetch video info:\n" ++ cpeStr url returncode }
  | .fileNotFoundError =>
      { title := "Error", message := "yt-dlp not found. Install it with: pip install yt-dlp" }
  | .jsonDecodeError msg =>
      { title := "Error", message := "An error occurred:\n" ++ msg }
  | .otherError msg =>
      { title := "Error", message := "An error occurred:\n" ++ msg }

/-- The widget and flag state of `YouTubeDownloader` touched by the
fetch/download workflow (`url_entry`, `formats`, `format_listbox`,
`title_label`, the two buttons, `progress_fill` width, `status_text`,
`is_downloading`, and which cards are packed). -/
structure UIState where
  urlEntry : String
  formats : List CatalogEntry
  listboxItems : List String
  titleLabel : String
  fetchEnabled : Bool
  downloadEnabled : Bool
  progressWidth : Nat
  statusLog : List String
  isDownloading : Bool
  infoCardVisible : Bool
  progressCardVisible : Bool
deriving Repr, DecidableEq

/-- Outcome of `subprocess.run` + `json.loads` inside the fetch thread:
either the parsed document (its optional `title` and its `formats` array),
or an exception. -/
inductive FetchOutcome where
  | parsed (title : Option String) (raws : List RawFormat)
  | raise (e : FetchExc)
deriving Repr, DecidableEq

/-- `fetch_formats` (lines 252-277), the UI-thread part: trim the entry text;
on empty input show an error box and return without starting the worker;
otherwise disable both buttons, clear the listbox and the stored formats,
hide the cards, show the progress card, log, zero the bar and start the
thread. Returns (new state, message box if any, whether the worker thread
was started). -/
def fetch_formats (s : UIState) : UIState × Option Note × Bool :=
  let url := pyStrip s.urlEntry
  if url = "" then
    (s, some { title := "Error", message := "Please enter a YouTube URL" }, false)
  else
    ({ s with
        fetchEnabled := false
        downloadEnabled := false
        listboxItems := []
        formats := []
        infoCardVisible := false
        progressCardVisible := true
        statusLog := s.statusLog ++ ["🔍 Fetching video information..."]
        progressWidth := 0 },
     none, true)

/-- `_update_formats_ui` (lines 338-351): install the catalog, fill the
listbox, re-enable both buttons, log the count, show the info card. -/
def update_formats_ui (s : UIState) (title : String) (formats : List CatalogEntry) : UIState :=
  { s with
      titleLabel := "🎬 " ++ title
      formats := formats
      listboxItems := s.listboxItems ++ formats.map (fun f => f.description)
      fetchEnabled := true
      downloadEnabled := true
      statusLog := s.statusLog ++ ["✅ Found " ++ toString formats.length ++ " quality options"]
      infoCardVisible := true }

/-- `_reset_ui` (lines 353-356): zero the progress bar and re-enable the
fetch button. -/
def reset_ui (s : UIState) : UIState :=
  { s with progressWidth := 0, fetchEnabled := true }

/-- `_fetch_formats_thread` (lines 279-336) given the external outcome: on a
parsed document, take `title` (default "Unknown"), build the catalog and run
`_update_formats_ui`; on an exception, show the handler's message box and run
`_reset_ui`. Returns (state after the queued UI callbacks, message box if
any). -/
def fetch_formats_thread (s : UIState) (outcome : FetchOutcome) : UIState × Option Note :=
  match outcome with
  | .parsed title raws =>
      (update_formats_ui s (title.getD "Unknown") (buildCatalog raws), none)
  | .raise e => (reset_ui s, some (fetchErrorNote e))

/-- One whole fetch invocation: the UI-thread prologue and, when the worker
was started, the worker's callbacks for the given external outcome. Returns
the final state and the message boxes shown, in order. -/
def fetchFlow (s : UIState) (outcome : FetchOutcome) : UIState × List Note :=
  match fetch_formats s with
  | (s1, note, started) =>
    if started then
      match fetch_formats_thread s1 outcome with
      | (s2, note2) => (s2, note.toList ++ note2.toList)
    else (s1, note.toList)

/-- The ephemeral download job: the URL and format id handed to
`_download_thread` (line 378). -/
structure DownloadJob where
  url : String
  formatId : Option String
deriving Repr, DecidableEq

/-- `start_download` (lines 358-380): with no listbox selection, warn and do
nothing; otherwise read the CURRENT entry text, look up the selected catalog
entry, disable both buttons, set the downloading flag, log, zero the bar and
start the worker with (url, format id). An out-of-range index (impossible
through the UI, whose listbox rows mirror `self.formats`) would raise an
uncaught `IndexError`; that branch returns the state unchanged with no job.
Returns (new state, message box if any, job handed to the worker if any). -/
def start_download (s : UIState) (selection : List Nat) : UIState × Option Note × Option DownloadJob :=
  match selection with
  | [] => (s, some { title := "Warning", message := "Please select a quality option" }, none)
  | idx :: _ =>
    match s.formats[idx]? with
    | none => (s, none, none)
    | some fmt =>
      ({ s with
          fetchEnabled := false
          downloadEnabled := false
          isDownloading := true
          statusLog := s.statusLog ++ ["\n⬇️ Starting download: " ++ fmt.description]
          progressWidth := 0 },
       none,
       some { url := pyStrip s.urlEntry, formatId := fmt.id })

/-- The argument list built at lines 385-391 of `_download_thread`. -/
def downloadCmd (formatId downloadPath url : String) : List String :=
  ["yt-dlp", "-f", formatId ++ "+bestaudio/best", "-P", downloadPath, "--newline", url]

/-- The command `_download_thread` actually runs for a job (the format id is
interpolated into the f-string, so a Python `None` would print as "None"). -/
def jobCmd (downloadPath : String) (j : DownloadJob) : List String :=
  downloadCmd (pyStr j.formatId) downloadPath j.url

/-- A UI callback queued by the download worker: a forwarded progress line
(`log_status`) or the completion notification with its success flag. -/
inductive DlEvent where
  | line (text : String)
  | complete (success : Bool)
deriving Repr, DecidableEq

/-- The output loop and epilogue of `_download_thread` (lines 400-411) as the
ordered sequence of queued UI callbacks: for each stdout line in emission
order, strip it and forward it when non-empty; after the loop the process is
waited for and the completion (success iff exit code 0) is reported. -/
def threadEvents : List String → Int → List DlEvent
  | [], ec => [DlEvent.complete (decide (ec = 0))]
  | l :: rest, ec =>
    let t := pyStrip l
    if t = "" then threadEvents rest ec
    else DlEvent.line t :: threadEvents rest ec

/-- `_download_complete` (lines 418-423): zero the bar, re-enable both
buttons, clear the downloading flag. -/
def download_complete (s : UIState) : UIState :=
  { s with progressWidth := 0, fetchEnabled := true, downloadEnabled := true,
           isDownloading := false }

/-- Sample raw format: 720p video with audio (spec §8 end-to-end scenario). -/
def rawHD : RawFormat :=
  { vcodec := some "vp9", format_id := some "247", ext := some "webm",
    resolution := some "1280x720", fps := some 30, acodec := some "opus",
    filesize := some 52428800, filesize_approx := none }

/-- Sample raw format sharing the dedup key of `rawHD` (same resolution,
also carrying audio) but differing in codec, id and size. -/
def rawHD2 : RawFormat :=
  { vcodec := some "av01", format_id := some "398", ext := some "mp4",
    resolution := some "1280x720", fps := some 30, acodec := some "mp4a",
    filesize := some 60000000, filesize_approx := none }

/-- Sample raw format: audio-only entry, video codec literally "none". -/
def rawAudio : RawFormat :=
  { vcodec := some "none", format_id := some "251", ext := some "webm",
    resolution := none, fps := none, acodec := some "opus",
    filesize := some 3000000, filesize_approx := none }

/-- Sample raw format: 360p, zero exact size, approximate size present. -/
def rawSD : RawFormat :=
  { vcodec := some "avc1", format_id := some "18", ext := some "mp4",
    resolution := some "640x360", fps := none, acodec := some "mp4a",
    filesize := some 0, filesize_approx := some 10485760 }

/-- Raw format whose `vcodec` key is absent altogether. -/
def rawNoV : RawFormat :=
  { vcodec := none, format_id := some "sb0", ext := some "mhtml",
    resolution := some "48x27", fps := none, acodec := none,
    filesize := none, filesize_approx := none }

/-- `ModernButton._on_click` (lines 46-48): the bound command runs only while
the button is enabled and a command is bound; the UI disables the trigger
buttons while an operation is in flight. -/
def on_click (enabled : Bool) (hasCommand : Bool) : Bool :=
  enabled && hasCommand

/-- A catalog entry as a prior successful fetch would have stored it. -/
def entryOld : CatalogEntry :=
  { id := some "22", description := "📹 1280x720 • mp4 • 🔊 Audio • 2.5MB",
    resolution := "1280x720", has_audio := true }

/-- State holding the catalog of a prior successful fetch, idle. -/
def sWithCatalog : UIState :=
  { urlEntry := "https://example/video", formats := [entryOld],
    listboxItems := ["📹 1280x720 • mp4 • 🔊 Audio • 2.5MB"], titleLabel := "🎬 Old",
    fetchEnabled := true, downloadEnabled := true, progressWidth := 0,
    statusLog := [], isDownloading := false, infoCardVisible := true,
    progressCardVisible := true }

/-- State in which a download is already in flight (`is_downloading` set). -/
def sBusy : UIState :=
  { urlEntry := "https://example/v2", formats := [entryOld],
    listboxItems := ["📹 1280x720 • mp4 • 🔊 Audio • 2.5MB"], titleLabel := "",
    fetchEnabled := true, downloadEnabled := true, progressWidth := 10,
    statusLog := [], isDownloading := true, infoCardVisible := true,
    progressCardVisible := true }

/-- State whose URL entry is whitespace only. -/
def sBlankUrl : UIState :=
  { urlEntry := "   ", formats := [entryOld], listboxItems := [],
    titleLabel := "", fetchEnabled := true, downloadEnabled := false,
    progressWidth := 0, statusLog := [], isDownloading := false,
    infoCardVisible := false, progressCardVisible := false }

/-- Fresh state before any fetch. -/
def sStart : UIState :=
  { urlEntry := "https://old/video", formats := [], listboxItems := [],
    titleLabel := "", fetchEnabled := true, downloadEnabled := false,
    progressWidth := 0, statusLog := [], isDownloading := false,
    infoCardVisible := false, progressCardVisible := false }

/-- State after a successful fetch of `sStart.urlEntry` offering `rawHD`. -/
def sFetched : UIState :=
  (fetchFlow sStart (.parsed (some "Old Title") [rawHD])).1

/-- Raw format whose exact `filesize` field is 100 MiB. -/
def raw100 : RawFormat :=
  { vcodec := some "avc1", format_id := some "137", ext := some "mp4",
    resolution := some "1920x1080", fps := some 30, acodec := some "none",
    filesize := some 104857600, filesize_approx := none }

/-- Raw format carrying no size information at all. -/
def rawNoSize : RawFormat :=
  { vcodec := some "avc1", format_id := some "136", ext := some "mp4",
    resolution := some "1280x720", fps := none, acodec := some "none",
    filesize := none, filesize_approx := none }

theorem dedup_mem (l : List CatalogEntry) : ∀ (seen : List (String × Bool)) (e : CatalogEntry),
    e ∈ dedupFormats seen l → keyOf e ∉ seen ∧ firstWithKey (keyOf e) l = some e := by
  induction l with
  | nil => intro seen e h; simp [dedupFormats] at h
  | cons a rest ih =>
    intro seen e h
    by_cases hk : keyOf a ∈ seen
    · rw [dedupFormats, if_pos hk] at h
      obtain ⟨h1, h2⟩ := ih seen e h
      have hne : keyOf a ≠ keyOf e := fun hh => h1 (hh ▸ hk)
      exact ⟨h1, by rw [firstWithKey, if_neg hne]; exact h2⟩
    · rw [dedupFormats, if_neg hk] at h
      rcases List.mem_cons.mp h with he | h
      · subst he
        exact ⟨hk, by rw [firstWithKey, if_pos rfl]⟩
      · obtain ⟨h1, h2⟩ := ih (keyOf a :: seen) e h
        have hne : keyOf a ≠ keyOf e := fun hh => h1 (by simp [hh])
        refine ⟨fun hs => h1 (List.mem_cons_of_mem _ hs), ?_⟩
        rw [firstWithKey, if_neg hne]; exact h2

theorem dedup_pairwise (l : List CatalogEntry) : ∀ seen : List (String × Bool),
    (dedupFormats seen l).Pairwise (fun a b => keyOf a ≠ keyOf b) := by
  induction l with
  | nil => intro seen; simp [dedupFormats]
  | cons a rest ih =>
    intro seen
    by_cases hk : keyOf a ∈ seen
    · rw [dedupFormats, if_pos hk]; exact ih seen
    · rw [dedupFormats, if_neg hk]
      refine List.Pairwise.cons ?_ (ih _)
      intro b hb hab
      exact (dedup_mem rest (keyOf a :: seen) b hb).1 (by simp [hab])

theorem dedup_sublist (l : List CatalogEntry) : ∀ seen : List (String × Bool),
    (dedupFormats seen l).Sublist l := by
  induction l with
  | nil => intro seen; simp [dedupFormats]
  | cons a rest ih =>
    intro seen
    by_cases hk : keyOf a ∈ seen
    · rw [dedupFormats, if_pos hk]; exact (ih seen).cons a
    · rw [dedupFormats, if_neg hk]; exact (ih _).cons₂ a

theorem dedup_covers (l : List CatalogEntry) : ∀ (seen : List (String × Bool)) (v : CatalogEntry),
    v ∈ l → keyOf v ∈ seen ∨ ∃ e, e ∈ dedupFormats seen l ∧ keyOf e = keyOf v := by
  induction l with
  | nil => intro seen v hv; simp at hv
  | cons a rest ih =>
    intro seen v hv
    by_cases hk : keyOf a ∈ seen
    · rw [dedupFormats, if_pos hk]
      rcases List.mem_cons.mp hv with rfl | hv2
      · exact Or.inl hk
      · exact ih seen v hv2
    · rw [dedupFormats, if_neg hk]
      rcases List.mem_cons.mp hv with rfl | hv2
      · exact Or.inr ⟨v, List.mem_cons_self _ _, rfl⟩
      · rcases ih (keyOf a :: seen) v hv2 with h | ⟨e, he, hke⟩
        · rcases List.mem_cons.mp h with h1 | h2
          · exact Or.inr ⟨a, List.mem_cons_self _ _, h1.symm⟩
          · exact Or.inl h2
        · exact Or.inr ⟨e, List.mem_cons_of_mem _ he, hke⟩

/-- C1: for every input list of raw formats, the catalog contains no two
entries with equal `(resolution, has_audio)` key; every entry of the catalog
is the FIRST element of the processed input (in input order) carrying its
key; every key occurring among the processed input is represented; and the
catalog is an order-preserving sublist of the processed input. -/
theorem C1_dedup_stable_first (raws : List RawFormat) :
    (buildCatalog raws).Pairwise (fun a b => keyOf a ≠ keyOf b) ∧
    (∀ e, e ∈ buildCatalog raws → firstWithKey (keyOf e) (videoFormats raws) = some e) ∧
    (∀ v, v ∈ videoFormats raws → ∃ e, e ∈ buildCatalog raws ∧ keyOf e = keyOf v) ∧
    (buildCatalog raws).Sublist (videoFormats raws) := by
  refine ⟨dedup_pairwise _ [], ?_, ?_, dedup_sublist _ []⟩
  · intro e he
    exact (dedup_mem (videoFormats raws) [] e he).2
  · intro v hv
    rcases dedup_covers (videoFormats raws) [] v hv with h | h
    · simp at h
    · exact h

theorem C1_dedup_stable_first_witness :
    firstWithKey (keyOf (mkEntry rawHD)) (videoFormats [rawHD, rawAudio, rawHD2, rawSD]) =
      some (mkEntry rawHD) :=
  (C1_dedup_stable_first [rawHD, rawAudio, rawHD2, rawSD]).2.1 (mkEntry rawHD) (by decide)

/-- C2 (counterexample): a raw entry with ABSENT video-codec field DOES
appear in the catalog, because `f.get('vcodec')` is Python `None`, which the
line-292 test `!= 'none'` lets through. The claim's "whose video-codec field
is absent never appears" is false. -/
theorem C2_counterexample :
    rawNoV.vcodec = none ∧ buildCatalog [rawNoV] = [mkEntry rawNoV] := by
  decide

/-- C2 (amended): a raw entry is included in the catalog only if its
video-codec field is different from the literal "none"; an absent field
counts as different from "none" and IS included. -/
theorem C2_filter_amended (raws : List RawFormat) (e : CatalogEntry)
    (he : e ∈ buildCatalog raws) :
    ∃ f, f ∈ raws ∧ f.vcodec ≠ some "none" ∧ mkEntry f = e := by
  have h1 : e ∈ videoFormats raws := (dedup_sublist (videoFormats raws) []).subset he
  rcases List.mem_map.mp h1 with ⟨f, hf, hfe⟩
  have hf2 := List.mem_filter.mp hf
  refine ⟨f, hf2.1, ?_, hfe⟩
  simpa [includeFormat] using hf2.2

theorem C2_filter_amended_witness :
    ∃ f, f ∈ [rawNoV] ∧ f.vcodec ≠ some "none" ∧ mkEntry f = mkEntry rawNoV :=
  C2_filter_amended [rawNoV] (mkEntry rawNoV) (by decide)

/-- C3 (counterexample): a JSON decoding failure and an arbitrary other
exception with the same text produce IDENTICAL message boxes: the code has no
separate malformed-response handler (`json.JSONDecodeError` falls into the
final `except Exception` arm), so the four spec kinds are not all
distinguishable in the notification. -/
theorem C3_counterexample :
    fetchErrorNote (.jsonDecodeError "Expecting value: line 1 column 1 (char 0)") =
      fetchErrorNote (.otherError "Expecting value: line 1 column 1 (char 0)") := rfl

theorem head_failed (d : String) :
    ("Failed to fetch video info:\n" ++ d).data.head? = some 'F' := by
  obtain ⟨ld⟩ := d; rfl

theorem head_an (m : String) :
    ("An error occurred:\n" ++ m).data.head? = some 'A' := by
  obtain ⟨lm⟩ := m; rfl

/-- C3 (amended): the fetch failure dispatch has exactly three distinguishable
handlers, not four: a non-zero tool exit yields "Failed to fetch video info:"
followed by `str()` of the `CalledProcessError` - "Command '[...]' returned
non-zero exit status N.", naming the command and exit status; the tool's
captured stderr never reaches the notification, so the message is identical
whatever diagnostic text the tool wrote. A missing executable yields the
install prompt, and EVERY other exception - malformed or structurally
unexpected JSON included - yields the generic "An error occurred:" message;
a malformed response is therefore not distinguishable from an unknown
failure, while the three handler classes are mutually distinguishable. -/
theorem C3_error_mapping_amended (url : String) (rc : Nat) (e1 e2 m : String) :
    fetchErrorNote (.calledProcessError url rc e1) =
      { title := "Error", message := "Failed to fetch video info:\n" ++ cpeStr url rc } ∧
    fetchErrorNote (.calledProcessError url rc e1) =
      fetchErrorNote (.calledProcessError url rc e2) ∧
    fetchErrorNote .fileNotFoundError =
      { title := "Error", message := "yt-dlp not found. Install it with: pip install yt-dlp" } ∧
    fetchErrorNote (.jsonDecodeError m) = fetchErrorNote (.otherError m) ∧
    (fetchErrorNote (.calledProcessError url rc e1)).message ≠
      (fetchErrorNote (.otherError m)).message ∧
    (fetchErrorNote (.calledProcessError url rc e1)).message ≠
      (fetchErrorNote .fileNotFoundError).message ∧
    (fetchErrorNote (.otherError m)).message ≠
      (fetchErrorNote .fileNotFoundError).message := by
  refine ⟨rfl, rfl, rfl, rfl, ?_, ?_, ?_⟩
  · intro h
    have h2 := congrArg (fun s : String => s.data.head?) h
    rw [show (fetchErrorNote (.calledProcessError url rc e1)).message =
          "Failed to fetch video info:\n" ++ cpeStr url rc from rfl,
        show (fetchErrorNote (.otherError m)).message =
          "An error occurred:\n" ++ m from rfl] at h2
    simp only [head_failed, head_an] at h2
    exact absurd h2 (by decide)
  · intro h
    have h2 := congrArg (fun s : String => s.data.head?) h
    rw [show (fetchErrorNote (.calledProcessError url rc e1)).message =
          "Failed to fetch video info:\n" ++ cpeStr url rc from rfl] at h2
    simp only [head_failed] at h2
    exact absurd h2 (by decide)
  · intro h
    have h2 := congrArg (fun s : String => s.data.head?) h
    rw [show (fetchErrorNote (.otherError m)).message =
          "An error occurred:\n" ++ m from rfl] at h2
    simp only [head_an] at h2
    exact absurd h2 (by decide)

theorem C3_error_mapping_amended_witness :
    cpeStr "https://example/video" 1 =
      "Command \x27[\x27yt-dlp\x27, \x27-J\x27, \x27https://example/video\x27]\x27 returned non-zero exit status 1." ∧
    (fetchErrorNote (.calledProcessError "https://example/video" 1
        "ERROR: Unsupported URL: https://example/video") =
      { title := "Error",
        message := "Failed to fetch video info:\n" ++ cpeStr "https://example/video" 1 } ∧
    fetchErrorNote (.calledProcessError "https://example/video" 1
        "ERROR: Unsupported URL: https://example/video") =
      fetchErrorNote (.calledProcessError "https://example/video" 1 "") ∧
    fetchErrorNote .fileNotFoundError =
      { title := "Error", message := "yt-dlp not found. Install it with: pip install yt-dlp" } ∧
    fetchErrorNote (.jsonDecodeError "Expecting value: line 1 column 1 (char 0)") =
      fetchErrorNote (.otherError "Expecting value: line 1 column 1 (char 0)") ∧
    (fetchErrorNote (.calledProcessError "https://example/video" 1
        "ERROR: Unsupported URL: https://example/video")).message ≠
      (fetchErrorNote (.otherError "Expecting value: line 1 column 1 (char 0)")).message ∧
    (fetchErrorNote (.calledProcessError "https://example/video" 1
        "ERROR: Unsupported URL: https://example/video")).message ≠
      (fetchErrorNote .fileNotFoundError).message ∧
    (fetchErrorNote (.otherError "Expecting value: line 1 column 1 (char 0)")).message ≠
      (fetchErrorNote .fileNotFoundError).message) :=
  ⟨by decide,
   C3_error_mapping_amended "https://example/video" 1
     "ERROR: Unsupported URL: https://example/video" ""
     "Expecting value: line 1 column 1 (char 0)"⟩

/-- C4 (counterexample): a state holds a one-entry catalog from an earlier
successful fetch; a new fetch that fails with a non-zero tool exit leaves the
catalog EMPTY, not unchanged - `fetch_formats` clears `self.formats` before
the worker ever runs, and no failure path restores it. -/
theorem C4_counterexample :
    sWithCatalog.formats = [entryOld] ∧
    (fetchFlow sWithCatalog
      (.raise (.calledProcessError "https://example/video" 1 "ERROR: boom"))).1.formats = [] := by
  decide

/-- C4 (amended): on every fetch invocation with a non-blank URL that ends in
failure (any of the four exception classes), the catalog comes out EMPTY -
cleared at invocation start, before the subprocess runs - rather than
unchanged; the progress bar is reset to zero and the fetch control
re-enabled; the only notification shown is the handler's message box. -/
theorem C4_failure_clears_and_resets (s : UIState) (e : FetchExc)
    (h : pyStrip s.urlEntry ≠ "") :
    (fetchFlow s (.raise e)).1.formats = [] ∧
    (fetchFlow s (.raise e)).1.progressWidth = 0 ∧
    (fetchFlow s (.raise e)).1.fetchEnabled = true ∧
    (fetchFlow s (.raise e)).2 = [fetchErrorNote e] := by
  simp [fetchFlow, fetch_formats, h, fetch_formats_thread, reset_ui]

theorem C4_failure_clears_and_resets_witness :
    (fetchFlow sWithCatalog (.raise .fileNotFoundError)).1.formats = [] ∧
    (fetchFlow sWithCatalog (.raise .fileNotFoundError)).1.progressWidth = 0 ∧
    (fetchFlow sWithCatalog (.raise .fileNotFoundError)).1.fetchEnabled = true ∧
    (fetchFlow sWithCatalog (.raise .fileNotFoundError)).2 =
      [fetchErrorNote .fileNotFoundError] :=
  C4_failure_clears_and_resets sWithCatalog .fileNotFoundError (by decide)

/-- C5: the download worker's queued callback sequence is exactly: each
subprocess line stripped, with lines blank after stripping dropped, in
emission order, followed by ONE completion event after the process exit,
whose success flag is true precisely when the exit code is 0. -/
theorem C5_line_stream_order (lines : List String) (ec : Int) :
    threadEvents lines ec =
      ((lines.map pyStrip).filter (fun t => t ≠ "")).map DlEvent.line
        ++ [DlEvent.complete (decide (ec = 0))] := by
  induction lines with
  | nil => rfl
  | cons l rest ih =>
    by_cases h : pyStrip l = ""
    · simp [threadEvents, h, ih]
    · simp [threadEvents, h, ih]

/-- C6: the download invocation's argument list is exactly
`yt-dlp -f <formatId>+bestaudio/best -P <downloadDir> --newline <url>`,
and for format id "137" the selector argument is "137+bestaudio/best". -/
theorem C6_download_cmd (fid dir url : String) :
    downloadCmd fid dir url =
      ["yt-dlp", "-f", fid ++ "+bestaudio/best", "-P", dir, "--newline", url] ∧
    jobCmd dir { url := url, formatId := some fid } = downloadCmd fid dir url ∧
    (downloadCmd "137" dir url).get? 2 = some "137+bestaudio/best" := by
  refine ⟨rfl, rfl, ?_⟩
  show some ("137" ++ "+bestaudio/best") = some "137+bestaudio/best"
  decide

/-- C7: the size used in an entry's description is the exact `filesize` field
when present and non-zero, else the `filesize_approx` field when present and
non-zero, else "Unknown"; 104857600 bytes render as "100.0MB", and an entry
with no size fields renders "Unknown". -/
theorem C7_size_selection (f : RawFormat) :
    (∀ n, f.filesize = some n → n ≠ 0 → sizeStr f = fmtMB n) ∧
    (f.filesize.getD 0 = 0 → ∀ m, f.filesize_approx = some m → m ≠ 0 →
      sizeStr f = fmtMB m) ∧
    (f.filesize.getD 0 = 0 → f.filesize_approx.getD 0 = 0 → sizeStr f = "Unknown") ∧
    sizeStr raw100 = "100.0MB" ∧
    sizeStr rawNoSize = "Unknown" := by
  refine ⟨?_, ?_, ?_, by decide, by decide⟩
  · intro n hn hn0
    unfold sizeStr sizeBytes
    rw [hn]
    simp [hn0]
  · intro h0 m hm hm0
    unfold sizeStr sizeBytes
    cases hf : f.filesize with
    | none => rw [hm]; simp [hm0]
    | some k =>
      have hk : k = 0 := by rw [hf] at h0; simpa using h0
      subst hk
      rw [hm]
      simp [hm0]
  · intro h0 ha
    unfold sizeStr sizeBytes
    cases hf : f.filesize with
    | none => simp [ha]
    | some k =>
      have hk : k = 0 := by rw [hf] at h0; simpa using h0
      subst hk
      simp [ha]

theorem C7_size_selection_witness :
    raw100.filesize = some 104857600 ∧ sizeStr raw100 = fmtMB 104857600 :=
  ⟨by decide, (C7_size_selection raw100).1 104857600 (by decide) (by decide)⟩

/-- C8: when the URL entry is empty after stripping whitespace,
`fetch_formats` shows the invalid-input error box and returns with the state
untouched (in particular the catalog) and with no worker thread started, so
the external process is never invoked. -/
theorem C8_empty_url_rejected (s : UIState) (h : pyStrip s.urlEntry = "") :
    fetch_formats s =
      (s, some { title := "Error", message := "Please enter a YouTube URL" }, false) := by
  simp [fetch_formats, h]

theorem C8_empty_url_rejected_witness :
    fetch_formats sBlankUrl =
      (sBlankUrl, some { title := "Error", message := "Please enter a YouTube URL" },
        false) :=
  C8_empty_url_rejected sBlankUrl (by decide)

/-- C9 (counterexample): with a download already in flight
(`is_downloading = true`), `start_download` on a valid selection still hands
a second job to a new worker with NO message box, and `fetch_formats` still
starts a second fetch worker with NO message box: no "busy" error is ever
surfaced by either operation. -/
theorem C9_counterexample :
    sBusy.isDownloading = true ∧
    (start_download sBusy [0]).2.1 = none ∧
    (start_download sBusy [0]).2.2 =
      some { url := "https://example/v2", formatId := some "22" } ∧
    (fetch_formats sBusy).2.1 = none ∧
    (fetch_formats sBusy).2.2 = true := by
  decide

/-- C9 (amended): neither operation consults any busy flag - the message box
and the work each hands off are independent of `is_downloading`, so no "busy"
error exists; instead, re-entrancy is prevented at the UI layer: any
invocation that starts a worker leaves both trigger buttons disabled, and a
disabled `ModernButton` never runs its command. -/
theorem C9_no_busy_guard (s : UIState) (sel : List Nat) (b c : Bool) :
    (start_download { s with isDownloading := b } sel).2 = (start_download s sel).2 ∧
    (fetch_formats { s with isDownloading := b }).2 = (fetch_formats s).2 ∧
    ((fetch_formats s).2.2 = true →
      (fetch_formats s).1.fetchEnabled = false ∧
      (fetch_formats s).1.downloadEnabled = false) ∧
    ((start_download s sel).2.2.isSome = true →
      (start_download s sel).1.fetchEnabled = false ∧
      (start_download s sel).1.downloadEnabled = false) ∧
    on_click false c = false := by
  refine ⟨?_, ?_, ?_, ?_, rfl⟩
  · cases sel with
    | nil => rfl
    | cons idx rest =>
      cases hg : s.formats[idx]? <;> simp [start_download, hg]
  · by_cases hu : pyStrip s.urlEntry = "" <;> simp [fetch_formats, hu]
  · intro h2
    by_cases hu : pyStrip s.urlEntry = ""
    · simp [fetch_formats, hu] at h2
    · simp [fetch_formats, hu]
  · intro h2
    cases sel with
    | nil => simp [start_download] at h2
    | cons idx rest =>
      cases hg : s.formats[idx]? with
      | none => simp [start_download, hg] at h2
      | some fmt => simp [start_download, hg]

theorem C9_no_busy_guard_witness :
    (start_download sBusy [0]).1.fetchEnabled = false ∧
    (start_download sBusy [0]).1.downloadEnabled = false :=
  (C9_no_busy_guard sBusy [0] true true).2.2.2.1 (by decide)

/-- C10: the job handed to the download worker carries the text in the URL
field AT TRIGGER TIME (stripped) together with the format id of the selected
entry of the stored catalog; nothing records which URL produced that catalog,
so editing the field between fetch and download yields a job pairing the new
URL with a format id discovered for the old one. -/
theorem C10_url_read_at_trigger (s : UIState) (newUrl : String) (idx : Nat)
    (rest : List Nat) (fmt : CatalogEntry) (h : s.formats[idx]? = some fmt) :
    (start_download { s with urlEntry := newUrl } (idx :: rest)).2.2 =
      some { url := pyStrip newUrl, formatId := fmt.id } := by
  simp [start_download, h]

theorem C10_url_read_at_trigger_witness :
    (start_download { sFetched with urlEntry := " https://new/video " } [0]).2.2 =
      some { url := pyStrip " https://new/video ", formatId := (mkEntry rawHD).id } :=
  C10_url_read_at_trigger sFetched " https://new/video " 0 [] (mkEntry rawHD) (by decide)
